import Mathlib

/-!
Verification of the filtering-and-aggregation core of the laptop-price
dashboard (`app.py`).

The table is a list of rows.  Prices, RAM sizes and storage capacities are
integers; means are rationals.  pandas boolean-mask filtering is modelled by
`List.filter` (mask filtering preserves row order), and the Python truthiness
test `if brands:` on a selection list is modelled by `!brands.isEmpty`.
-/

/-- One row of the loaded table.  `platform`, `city` and `rating` are the
columns synthesised by `load_data`; the rest come from the CSV. -/
structure Row where
  brand : String
  price : Int
  ram_size : Int
  storage_capacity : Int
  processor_speed : ℚ
  screen_size : ℚ
  weight : ℚ
  platform : String
  city : String
  rating : ℚ
deriving DecidableEq

/-- `filter_data(df, city, brands, price_range, platforms, ram_sizes,
storage_sizes)` from `app.py` lines 120-144: each guarded step narrows the
frame by a boolean mask; `df.copy()` is the identity on the value level. -/
def filter_data (df : List Row) (city : String) (brands : List String)
    (price_range : Int × Int) (platforms : List String)
    (ram_sizes : List Int) (storage_sizes : List Int) : List Row :=
  let filtered_df := df
  let f1 := if city != "All" then filtered_df.filter (fun r => r.city == city) else filtered_df
  let f2 := if !brands.isEmpty then f1.filter (fun r => brands.contains r.brand) else f1
  let f3 := f2.filter (fun r =>
    decide (price_range.1 ≤ r.price) && decide (r.price ≤ price_range.2))
  let f4 := if !platforms.isEmpty then f3.filter (fun r => platforms.contains r.platform) else f3
  let f5 := if !ram_sizes.isEmpty then f4.filter (fun r => ram_sizes.contains r.ram_size) else f4
  if !storage_sizes.isEmpty then f5.filter (fun r => storage_sizes.contains r.storage_capacity)
  else f5

/-- Spec-side row predicate: the conjunction of all active predicates.  The
city predicate is active unless the city is the sentinel "All"; each
membership predicate is active exactly when the selected set is nonempty; the
price interval is always active and inclusive on both ends. -/
def rowMatch (city : String) (brands : List String) (price_range : Int × Int)
    (platforms : List String) (ram_sizes : List Int) (storage_sizes : List Int)
    (r : Row) : Bool :=
  (city == "All" || r.city == city) &&
  (brands.isEmpty || brands.contains r.brand) &&
  (decide (price_range.1 ≤ r.price) && decide (r.price ≤ price_range.2)) &&
  (platforms.isEmpty || platforms.contains r.platform) &&
  (ram_sizes.isEmpty || ram_sizes.contains r.ram_size) &&
  (storage_sizes.isEmpty || storage_sizes.contains r.storage_capacity)

/-- `filter_data` with the brand step absent (spec-side: the brand predicate
is not applied at all). -/
def filter_data_dropBrand (df : List Row) (city : String) (price_range : Int × Int)
    (platforms : List String) (ram_sizes : List Int) (storage_sizes : List Int) : List Row :=
  let filtered_df := df
  let f1 := if city != "All" then filtered_df.filter (fun r => r.city == city) else filtered_df
  let f3 := f1.filter (fun r =>
    decide (price_range.1 ≤ r.price) && decide (r.price ≤ price_range.2))
  let f4 := if !platforms.isEmpty then f3.filter (fun r => platforms.contains r.platform) else f3
  let f5 := if !ram_sizes.isEmpty then f4.filter (fun r => ram_sizes.contains r.ram_size) else f4
  if !storage_sizes.isEmpty then f5.filter (fun r => storage_sizes.contains r.storage_capacity)
  else f5

/-- `filter_data` with the marketplace (platform) step absent. -/
def filter_data_dropPlatform (df : List Row) (city : String) (brands : List String)
    (price_range : Int × Int) (ram_sizes : List Int) (storage_sizes : List Int) : List Row :=
  let filtered_df := df
  let f1 := if city != "All" then filtered_df.filter (fun r => r.city == city) else filtered_df
  let f2 := if !brands.isEmpty then f1.filter (fun r => brands.contains r.brand) else f1
  let f3 := f2.filter (fun r =>
    decide (price_range.1 ≤ r.price) && decide (r.price ≤ price_range.2))
  let f5 := if !ram_sizes.isEmpty then f3.filter (fun r => ram_sizes.contains r.ram_size) else f3
  if !storage_sizes.isEmpty then f5.filter (fun r => storage_sizes.contains r.storage_capacity)
  else f5

/-- `filter_data` with the ram-size step absent. -/
def filter_data_dropRam (df : List Row) (city : String) (brands : List String)
    (price_range : Int × Int) (platforms : List String) (storage_sizes : List Int) : List Row :=
  let filtered_df := df
  let f1 := if city != "All" then filtered_df.filter (fun r => r.city == city) else filtered_df
  let f2 := if !brands.isEmpty then f1.filter (fun r => brands.contains r.brand) else f1
  let f3 := f2.filter (fun r =>
    decide (price_range.1 ≤ r.price) && decide (r.price ≤ price_range.2))
  let f4 := if !platforms.isEmpty then f3.filter (fun r => platforms.contains r.platform) else f3
  if !storage_sizes.isEmpty then f4.filter (fun r => storage_sizes.contains r.storage_capacity)
  else f4

/-- `filter_data` with the storage-capacity step absent. -/
def filter_data_dropStorage (df : List Row) (city : String) (brands : List String)
    (price_range : Int × Int) (platforms : List String) (ram_sizes : List Int) : List Row :=
  let filtered_df := df
  let f1 := if city != "All" then filtered_df.filter (fun r => r.city == city) else filtered_df
  let f2 := if !brands.isEmpty then f1.filter (fun r => brands.contains r.brand) else f1
  let f3 := f2.filter (fun r =>
    decide (price_range.1 ≤ r.price) && decide (r.price ≤ price_range.2))
  let f4 := if !platforms.isEmpty then f3.filter (fun r => platforms.contains r.platform) else f3
  if !ram_sizes.isEmpty then f4.filter (fun r => ram_sizes.contains r.ram_size)
  else f4

/-- Mean of the Price column (`df['Price'].mean()`), as a rational. -/
def mean_price (df : List Row) : ℚ :=
  ((df.map (fun r => (r.price : ℚ))).sum) / (df.length : ℚ)

/-- The distinct platform labels in ascending label order: pandas
`groupby('Platform')` sorts the group keys (`sort=True` is the default). -/
def platform_keys (df : List Row) : List String :=
  List.insertionSort (fun a b => a ≤ b) ((df.map Row.platform).dedup)

/-- Mean price of the rows whose platform is `k`. -/
def group_mean (df : List Row) (k : String) : ℚ :=
  let ps := (df.filter (fun r => r.platform == k)).map (fun r => (r.price : ℚ))
  ps.sum / (ps.length : ℚ)

/-- `df.groupby('Platform')['Price'].mean()`: one (key, mean) pair per
distinct platform, keys in ascending order. -/
def platform_means (df : List Row) : List (String × ℚ) :=
  (platform_keys df).map (fun k => (k, group_mean df k))

/-- `df.groupby('Platform')['Price'].agg(['mean', 'count'])` from
`create_platform_comparison_chart`: (key, mean, count) per distinct platform. -/
def platform_stats (df : List Row) : List (String × ℚ × Nat) :=
  (platform_keys df).map
    (fun k => (k, group_mean df k, (df.filter (fun r => r.platform == k)).length))

/-- `df['Platform'].value_counts()` from `create_platform_market_share`:
counts per distinct platform, sorted by count descending. -/
def platform_value_counts (df : List Row) : List (String × Nat) :=
  List.insertionSort (fun a b => b.2 ≤ a.2)
    (((df.map Row.platform).dedup).map
      (fun k => (k, (df.filter (fun r => r.platform == k)).length)))

/-- Comparison used by `sort_values()` on the mean-price series: only the
value is compared.  `sort_values` sorts with numpy's introsort, which on
arrays below 16 elements (here at most 5 platforms) is insertion sort, hence
stable; it is modelled as a stable insertion sort. -/
def meanLe (a b : String × ℚ) : Prop := a.2 ≤ b.2

instance : DecidableRel meanLe := fun a b => inferInstanceAs (Decidable (a.2 ≤ b.2))

/-- `get_cheapest_platforms(df)` from `app.py` lines 266-269:
`df.groupby('Platform')['Price'].mean().sort_values().head(2)`. -/
def get_cheapest_platforms (df : List Row) : List (String × ℚ) :=
  (List.insertionSort meanLe (platform_means df)).take 2

/-- Spec-side comparison: ascending mean price, ties broken by ascending
group label. -/
def lexLe (a b : String × ℚ) : Prop := a.2 < b.2 ∨ (a.2 = b.2 ∧ a.1 ≤ b.1)

instance : DecidableRel lexLe :=
  fun a b => inferInstanceAs (Decidable (a.2 < b.2 ∨ (a.2 = b.2 ∧ a.1 ≤ b.1)))

/-- Spec-side cheapest groups: all (group, mean) pairs sorted by mean with
the label as tie-break, truncated to two. -/
def cheapest_spec (df : List Row) : List (String × ℚ) :=
  (List.insertionSort lexLe (platform_means df)).take 2

instance : IsTrans (String × ℚ) meanLe := ⟨fun _ _ _ h1 h2 => le_trans h1 h2⟩

instance : IsTotal (String × ℚ) meanLe := ⟨fun a b => le_total a.2 b.2⟩

instance : IsTrans (String × ℚ) lexLe := by
  constructor
  rintro a b c (h1 | ⟨e1, l1⟩) (h2 | ⟨e2, l2⟩)
  · exact Or.inl (lt_trans h1 h2)
  · exact Or.inl (lt_of_lt_of_eq h1 e2)
  · exact Or.inl (lt_of_eq_of_lt e1 h2)
  · exact Or.inr ⟨e1.trans e2, le_trans l1 l2⟩

instance : IsTotal (String × ℚ) lexLe := by
  constructor
  intro a b
  rcases lt_trichotomy a.2 b.2 with h | h | h
  · exact Or.inl (Or.inl h)
  · rcases le_total a.1 b.1 with hl | hl
    · exact Or.inl (Or.inr ⟨h, hl⟩)
    · exact Or.inr (Or.inr ⟨h.symm, hl⟩)
  · exact Or.inr (Or.inl h)

instance : IsAntisymm (String × ℚ) lexLe := by
  constructor
  rintro a b (h1 | ⟨e1, l1⟩) (h2 | ⟨e2, l2⟩)
  · exact absurd h2 (asymm h1)
  · exact absurd h1 (by rw [e2]; exact lt_irrefl _)
  · exact absurd h2 (by rw [e1]; exact lt_irrefl _)
  · exact Prod.ext (le_antisymm l1 l2) e1

/-- One row of the CSV before `load_data` adds the synthesised columns. -/
structure BaseRow where
  brand : String
  price : Int
  ram_size : Int
  storage_capacity : Int
  processor_speed : ℚ
  screen_size : ℚ
  weight : ℚ
deriving DecidableEq

/-- Modelled from numpy's documented seeding contract: a deterministic state
step (a linear congruential step stands in for the Mersenne Twister; the
claims depend only on the stream being a function of the seed alone). -/
def lcg_step (s : Nat) : Nat := (6364136223846793005 * s + 1442695040888963407) % (2 ^ 64)

/-- `np.random.seed(seed)`: the global generator state becomes a function of
the seed alone, discarding whatever state was there before. -/
def np_seed (seed : Nat) : Nat := seed % (2 ^ 64)

/-- Draw one natural below `n` and the successor state. -/
def draw_nat (s : Nat) (n : Nat) : Nat × Nat := (lcg_step s % n, lcg_step s)

/-- `np.random.choice(opts, size=n)`: `n` independent uniform draws. -/
def draw_choices (opts : List String) : Nat → Nat → List String × Nat
  | 0, s => ([], s)
  | n + 1, s =>
    let p := draw_nat s opts.length
    let rest := draw_choices opts n p.2
    (opts.getD p.1 "" :: rest.1, rest.2)

/-- `np.random.uniform(3.0, 5.0, size=n).round(1)`: `n` draws in [3, 5] with
one decimal. -/
def draw_ratings : Nat → Nat → List ℚ × Nat
  | 0, s => ([], s)
  | n + 1, s =>
    let p := draw_nat s 21
    let rest := draw_ratings n p.2
    ((30 + (p.1 : ℚ)) / 10 :: rest.1, rest.2)

def platforms_list : List String :=
  ["Amazon", "Flipkart", "Reliance Digital", "Croma", "Vijay Sales"]

def cities_list : List String :=
  ["Bhopal", "Mumbai", "Delhi", "Bangalore", "Chennai", "Kolkata", "Pune", "Hyderabad"]

/-- Zip the base columns with the three synthesised columns. -/
def assemble : List BaseRow → List String → List String → List ℚ → List Row
  | b :: bs, p :: ps, c :: cs, r :: rs =>
    ⟨b.brand, b.price, b.ram_size, b.storage_capacity, b.processor_speed,
      b.screen_size, b.weight, p, c, r⟩ :: assemble bs ps cs rs
  | _, _, _, _ => []

/-- `load_data` body (`app.py` lines 52-66): seed the global generator with
42, then draw Platform, City and Rating columns in that order.  `g` is the
ambient generator state before the call; `np.random.seed(42)` discards it. -/
def load_data (base : List BaseRow) (g : Nat) : List Row × Nat :=
  let g0 := np_seed 42
  let plats := draw_choices platforms_list base.length g0
  let cits := draw_choices cities_list base.length plats.2
  let rats := draw_ratings base.length cits.2
  (assemble base plats.1 cits.1 rats.1, rats.2)

/-- The `try/except` wrapper of `load_data` (`app.py` lines 48-69): any
failure while reading the CSV is caught and turned into `None`; on success
the augmented table is returned. -/
def load_data_checked (read_result : Except String (List BaseRow)) (g : Nat) :
    Option (List Row × Nat) :=
  match read_result with
  | Except.ok df => some (load_data df g)
  | Except.error _ => none

/-- Row constructor for concrete tables; the spec-irrelevant numeric columns
get fixed values. -/
def sampleRow (brand platform city : String) (price ram stor : Int) : Row :=
  ⟨brand, price, ram, stor, 2, 15, 2, platform, city, 4⟩

/-- The 5-row end-to-end table of the spec: brands X and Y, prices
10000, 20000, 15000, 30000, 25000. -/
def exRow1 : Row := sampleRow "X" "Amazon" "Delhi" 10000 8 512
def exRow2 : Row := sampleRow "Y" "Flipkart" "Mumbai" 20000 16 512
def exRow3 : Row := sampleRow "X" "Croma" "Delhi" 15000 8 256
def exRow4 : Row := sampleRow "Y" "Amazon" "Pune" 30000 32 1024
def exRow5 : Row := sampleRow "X" "Flipkart" "Delhi" 25000 16 512

def ex5 : List Row := [exRow1, exRow2, exRow3, exRow4, exRow5]

/-- The cheapest-groups example table: marketplaces A (mean 1000),
B (mean 800), C (mean 1200), appearing in that order. -/
def exC3 : List Row :=
  [sampleRow "X" "A" "Delhi" 1000 8 512,
   sampleRow "X" "B" "Delhi" 800 8 512,
   sampleRow "X" "C" "Delhi" 1200 8 512]

/-- Tie-break counterexample table: platform B appears first, then A, with
equal mean prices. -/
def exTie : List Row :=
  [sampleRow "X" "B" "Delhi" 100 8 512,
   sampleRow "X" "A" "Delhi" 100 8 512]

theorem filter_guard {α : Type} (l : List α) (c : Bool) (q : α → Bool) :
    (if c then l.filter q else l) = l.filter (fun r => !c || q r) := by
  cases c <;> simp

/-- `filter_data` keeps exactly the rows satisfying `rowMatch`, in order. -/
theorem filter_data_eq (df : List Row) (city : String) (brands : List String)
    (price_range : Int × Int) (platforms : List String)
    (ram_sizes : List Int) (storage_sizes : List Int) :
    filter_data df city brands price_range platforms ram_sizes storage_sizes
      = df.filter (rowMatch city brands price_range platforms ram_sizes storage_sizes) := by
  simp only [filter_data]
  rw [filter_guard, filter_guard, filter_guard, filter_guard, filter_guard]
  simp only [List.filter_filter]
  apply List.filter_congr
  intro r _
  simp only [rowMatch, bne, Bool.not_not]
  cases h1 : (city == "All") <;> cases h2 : brands.isEmpty <;>
    cases h3 : platforms.isEmpty <;> cases h4 : ram_sizes.isEmpty <;>
    cases h5 : storage_sizes.isEmpty <;>
    simp [Bool.and_comm, Bool.and_left_comm, Bool.and_assoc]

/-- Prop-level reading of `rowMatch`. -/
theorem rowMatch_iff (city : String) (brands : List String) (price_range : Int × Int)
    (platforms : List String) (ram_sizes storage_sizes : List Int) (r : Row) :
    rowMatch city brands price_range platforms ram_sizes storage_sizes r = true
      ↔ ((city = "All" ∨ r.city = city)
        ∧ (brands = [] ∨ r.brand ∈ brands)
        ∧ (price_range.1 ≤ r.price ∧ r.price ≤ price_range.2)
        ∧ (platforms = [] ∨ r.platform ∈ platforms)
        ∧ (ram_sizes = [] ∨ r.ram_size ∈ ram_sizes)
        ∧ (storage_sizes = [] ∨ r.storage_capacity ∈ storage_sizes)) := by
  simp [rowMatch, and_assoc]

theorem length_filter_mono {α : Type} (l : List α) (p q : α → Bool)
    (h : ∀ r, p r = true → q r = true) :
    (l.filter p).length ≤ (l.filter q).length :=
  (List.monotone_filter_right l h).length_le

/-- Inserting an element whose label is at most every label in the list is the
same under the mean-only order and the lexicographic order. -/
theorem orderedInsert_agree (a : String × ℚ) (l : List (String × ℚ))
    (h : ∀ b ∈ l, a.1 ≤ b.1) :
    List.orderedInsert meanLe a l = List.orderedInsert lexLe a l := by
  induction l with
  | nil => rfl
  | cons b t ih =>
    have hab : meanLe a b ↔ lexLe a b := by
      constructor
      · intro hm
        rcases lt_or_eq_of_le hm with h' | h'
        · exact Or.inl h'
        · exact Or.inr ⟨h', h b (List.mem_cons_self b t)⟩
      · rintro (h' | ⟨e, _⟩)
        · exact le_of_lt h'
        · exact le_of_eq e
    simp only [List.orderedInsert]
    by_cases hm : meanLe a b
    · rw [if_pos hm, if_pos (hab.mp hm)]
    · rw [if_neg hm, if_neg (fun hl => hm (hab.mpr hl)),
        ih (fun c hc => h c (List.mem_cons_of_mem b hc))]

/-- On a list whose labels are already in ascending order, stable sorting by
mean alone agrees with sorting by mean with the label as tie-break. -/
theorem insertionSort_agree (l : List (String × ℚ))
    (h : l.Pairwise (fun a b => a.1 ≤ b.1)) :
    List.insertionSort meanLe l = List.insertionSort lexLe l := by
  induction l with
  | nil => rfl
  | cons a t ih =>
    simp only [List.insertionSort]
    rw [ih (List.pairwise_cons.mp h).2]
    apply orderedInsert_agree
    intro b hb
    exact (List.pairwise_cons.mp h).1 b
      ((List.perm_insertionSort lexLe t).mem_iff.mp hb)

/-- The grouped means carry their keys in ascending label order. -/
theorem platform_means_key_sorted (df : List Row) :
    (platform_means df).Pairwise (fun a b => a.1 ≤ b.1) := by
  unfold platform_means
  rw [List.pairwise_map]
  exact List.sorted_insertionSort (fun a b => a ≤ b) ((df.map Row.platform).dedup)

/-- The stable mean-only sort of the code equals the lexicographic sort of
the spec. -/
theorem cheapest_eq (df : List Row) : get_cheapest_platforms df = cheapest_spec df := by
  unfold get_cheapest_platforms cheapest_spec
  rw [insertionSort_agree _ (platform_means_key_sorted df)]

/-- C1: for every table and filter specification, `filter_data` returns
exactly the rows of the input table satisfying the conjunction of all active
predicates — city equality (skipped for the sentinel "All"), brand
membership, inclusive price interval, marketplace membership, ram-size
membership and storage-size membership, a membership predicate being active
exactly when its selection is nonempty — and the returned rows keep their
original order. -/
theorem filter_data_active_conjunction (df : List Row) (city : String)
    (brands : List String) (price_range : Int × Int) (platforms : List String)
    (ram_sizes storage_sizes : List Int) :
    filter_data df city brands price_range platforms ram_sizes storage_sizes
      = df.filter (rowMatch city brands price_range platforms ram_sizes storage_sizes)
    ∧ ∀ r : Row,
      (r ∈ filter_data df city brands price_range platforms ram_sizes storage_sizes
        ↔ r ∈ df ∧ ((city = "All" ∨ r.city = city)
          ∧ (brands = [] ∨ r.brand ∈ brands)
          ∧ (price_range.1 ≤ r.price ∧ r.price ≤ price_range.2)
          ∧ (platforms = [] ∨ r.platform ∈ platforms)
          ∧ (ram_sizes = [] ∨ r.ram_size ∈ ram_sizes)
          ∧ (storage_sizes = [] ∨ r.storage_capacity ∈ storage_sizes))) := by
  refine ⟨filter_data_eq df city brands price_range platforms ram_sizes storage_sizes, ?_⟩
  intro r
  rw [filter_data_eq, List.mem_filter, rowMatch_iff]

/-- C2: an empty brand, marketplace, ram-size or storage-size selection
imposes no constraint — the result coincides with the filter in which that
predicate is absent. -/
theorem filter_data_empty_selection_no_constraint (df : List Row) (city : String)
    (brands : List String) (price_range : Int × Int) (platforms : List String)
    (ram_sizes storage_sizes : List Int) :
    (filter_data df city [] price_range platforms ram_sizes storage_sizes
      = filter_data_dropBrand df city price_range platforms ram_sizes storage_sizes)
    ∧ (filter_data df city brands price_range [] ram_sizes storage_sizes
      = filter_data_dropPlatform df city brands price_range ram_sizes storage_sizes)
    ∧ (filter_data df city brands price_range platforms [] storage_sizes
      = filter_data_dropRam df city brands price_range platforms storage_sizes)
    ∧ (filter_data df city brands price_range platforms ram_sizes []
      = filter_data_dropStorage df city brands price_range platforms ram_sizes) :=
  ⟨rfl, rfl, rfl, rfl⟩

/-- C3 (amended): `get_cheapest_platforms` returns the (group, mean price)
pairs sorted ascending by mean price, of length min(2, number of distinct
platforms), ties broken by ascending platform label (pandas `groupby` sorts
the group keys alphabetically and the stable value sort keeps that order on
ties) — not by first appearance in the table; on the spec's example table it
returns [("B", 800), ("A", 1000)]. -/
theorem get_cheapest_platforms_characterization :
    (∀ df : List Row,
      get_cheapest_platforms df = cheapest_spec df
      ∧ List.Sorted lexLe (get_cheapest_platforms df)
      ∧ (get_cheapest_platforms df).length = min 2 (platform_keys df).length)
    ∧ get_cheapest_platforms exC3 = [("B", 800), ("A", 1000)] := by
  constructor
  · intro df
    refine ⟨cheapest_eq df, ?_, ?_⟩
    · rw [cheapest_eq df]
      exact (List.sorted_insertionSort lexLe (platform_means df)).sublist
        (List.take_sublist 2 _)
    · rw [get_cheapest_platforms, List.length_take,
        (List.perm_insertionSort meanLe (platform_means df)).length_eq,
        platform_means, List.length_map]
  · simp [get_cheapest_platforms, platform_means, platform_keys, group_mean, exC3, sampleRow,
      List.insertionSort, List.orderedInsert, meanLe, List.dedup, List.filter_cons]
    norm_num

/-- C3 counterexample: on a table whose platforms B and A appear in that
order with equal mean prices, the code returns the tied pairs in alphabetical
order [("A", 100), ("B", 100)], not in first-appearance order
[("B", 100), ("A", 100)] as the claim states. -/
theorem get_cheapest_platforms_tie_not_first_appearance :
    get_cheapest_platforms exTie = [("A", 100), ("B", 100)]
    ∧ get_cheapest_platforms exTie ≠ [("B", 100), ("A", 100)] := by
  have h : get_cheapest_platforms exTie = [("A", 100), ("B", 100)] := by
    simp [get_cheapest_platforms, platform_means, platform_keys, group_mean, exTie, sampleRow,
      List.insertionSort, List.orderedInsert, meanLe, List.dedup, List.filter_cons]
  refine ⟨h, ?_⟩
  rw [h]
  simp

/-- C4: the price-interval predicate is inclusive at both ends — a row of the
table priced exactly at `low` or `high` (with the other predicates inactive)
is kept — and on the spec's 5-row table the interval [15000, 25000] keeps
exactly the rows priced 20000, 15000, 25000, whose mean price is 20000. -/
theorem filter_data_price_boundary_inclusive :
    (∀ (df : List Row) (low high : Int) (r : Row), r ∈ df → low ≤ high →
      (r.price = low ∨ r.price = high) →
      r ∈ filter_data df "All" [] (low, high) [] [] [])
    ∧ filter_data ex5 "All" [] (15000, 25000) [] [] [] = [exRow2, exRow3, exRow5]
    ∧ mean_price (filter_data ex5 "All" [] (15000, 25000) [] [] []) = 20000 := by
  have h2 : filter_data ex5 "All" [] (15000, 25000) [] [] [] = [exRow2, exRow3, exRow5] := by
    decide
  refine ⟨?_, h2, ?_⟩
  · rintro df low high r hmem hlh hp
    rw [filter_data_eq]
    refine List.mem_filter.mpr ⟨hmem, (rowMatch_iff _ _ _ _ _ _ _).mpr ?_⟩
    refine ⟨Or.inl rfl, Or.inl rfl, ⟨?_, ?_⟩, Or.inl rfl, Or.inl rfl, Or.inl rfl⟩ <;>
      rcases hp with hp | hp <;> simp only [] <;> omega
  · rw [h2]
    norm_num [mean_price, exRow2, exRow3, exRow5, sampleRow]

/-- C4 witness: the row priced exactly 15000 (the lower bound) of the 5-row
example table is kept by the price filter [15000, 25000]. -/
theorem filter_data_price_boundary_inclusive_witness :
    (exRow3 ∈ ex5 ∧ (15000 : Int) ≤ 25000 ∧ exRow3.price = 15000)
    ∧ exRow3 ∈ filter_data ex5 "All" [] (15000, 25000) [] [] [] :=
  ⟨⟨by decide, by decide, by decide⟩,
    filter_data_price_boundary_inclusive.1 ex5 15000 25000 exRow3
      (by decide) (by decide) (Or.inl (by decide))⟩

/-- C5 counterexample: removing the only element of the brand selection
empties it, which the filter treats as "no constraint": on a one-row table of
brand X with selection ["Y"], erasing "Y" raises the row count from 0 to 1,
so narrowing a selection can increase the result. -/
theorem filter_data_erase_can_increase :
    ¬ ((filter_data [sampleRow "X" "Amazon" "Delhi" 100 8 512] "All"
          (List.erase ["Y"] "Y") (0, 1000) [] [] []).length
        ≤ (filter_data [sampleRow "X" "Amazon" "Delhi" 100 8 512] "All"
          ["Y"] (0, 1000) [] [] []).length) := by
  decide

/-- C5 (amended): shrinking the price interval never increases the row count,
and removing an element from the brand, marketplace, ram-size or storage-size
selection never increases the row count provided the selection stays nonempty
(removing the last element empties the selection, which the filter treats as
no constraint and can increase the count). -/
theorem filter_data_narrowing_mono (df : List Row) (city : String)
    (brands : List String) (price_range : Int × Int) (platforms : List String)
    (ram_sizes storage_sizes : List Int) :
    (∀ low high : Int, price_range.1 ≤ low → high ≤ price_range.2 →
      (filter_data df city brands (low, high) platforms ram_sizes storage_sizes).length
        ≤ (filter_data df city brands price_range platforms ram_sizes storage_sizes).length)
    ∧ (∀ x : String, brands.erase x ≠ [] →
      (filter_data df city (brands.erase x) price_range platforms ram_sizes storage_sizes).length
        ≤ (filter_data df city brands price_range platforms ram_sizes storage_sizes).length)
    ∧ (∀ x : String, platforms.erase x ≠ [] →
      (filter_data df city brands price_range (platforms.erase x) ram_sizes storage_sizes).length
        ≤ (filter_data df city brands price_range platforms ram_sizes storage_sizes).length)
    ∧ (∀ x : Int, ram_sizes.erase x ≠ [] →
      (filter_data df city brands price_range platforms (ram_sizes.erase x) storage_sizes).length
        ≤ (filter_data df city brands price_range platforms ram_sizes storage_sizes).length)
    ∧ (∀ x : Int, storage_sizes.erase x ≠ [] →
      (filter_data df city brands price_range platforms ram_sizes (storage_sizes.erase x)).length
        ≤ (filter_data df city brands price_range platforms ram_sizes storage_sizes).length) := by
  refine ⟨?_, ?_, ?_, ?_, ?_⟩
  · intro low high h1 h2
    rw [filter_data_eq, filter_data_eq]
    apply length_filter_mono
    intro r hr
    rw [rowMatch_iff] at hr ⊢
    obtain ⟨hc, hb, ⟨hp1, hp2⟩, hpl, hrm, hs⟩ := hr
    exact ⟨hc, hb, ⟨le_trans h1 hp1, le_trans hp2 h2⟩, hpl, hrm, hs⟩
  · intro x hne
    rw [filter_data_eq, filter_data_eq]
    apply length_filter_mono
    intro r hr
    rw [rowMatch_iff] at hr ⊢
    obtain ⟨hc, hb, hp, hpl, hrm, hs⟩ := hr
    rcases hb with hb | hb
    · exact absurd hb hne
    · exact ⟨hc, Or.inr (List.mem_of_mem_erase hb), hp, hpl, hrm, hs⟩
  · intro x hne
    rw [filter_data_eq, filter_data_eq]
    apply length_filter_mono
    intro r hr
    rw [rowMatch_iff] at hr ⊢
    obtain ⟨hc, hb, hp, hpl, hrm, hs⟩ := hr
    rcases hpl with hpl | hpl
    · exact absurd hpl hne
    · exact ⟨hc, hb, hp, Or.inr (List.mem_of_mem_erase hpl), hrm, hs⟩
  · intro x hne
    rw [filter_data_eq, filter_data_eq]
    apply length_filter_mono
    intro r hr
    rw [rowMatch_iff] at hr ⊢
    obtain ⟨hc, hb, hp, hpl, hrm, hs⟩ := hr
    rcases hrm with hrm | hrm
    · exact absurd hrm hne
    · exact ⟨hc, hb, hp, hpl, Or.inr (List.mem_of_mem_erase hrm), hs⟩
  · intro x hne
    rw [filter_data_eq, filter_data_eq]
    apply length_filter_mono
    intro r hr
    rw [rowMatch_iff] at hr ⊢
    obtain ⟨hc, hb, hp, hpl, hrm, hs⟩ := hr
    rcases hs with hs | hs
    · exact absurd hs hne
    · exact ⟨hc, hb, hp, hpl, hrm, Or.inr (List.mem_of_mem_erase hs)⟩

/-- C5 witness: concrete narrowings of the 5-row example table — a shrunk
price interval and one-element removals leaving each selection nonempty —
do not increase the row count. -/
theorem filter_data_narrowing_mono_witness :
    ((15000 : Int) ≤ 16000 ∧ (24000 : Int) ≤ 25000
      ∧ (filter_data ex5 "All" ["X", "Y"] (16000, 24000) ["Amazon", "Flipkart"] [8, 16] [512, 256]).length
          ≤ (filter_data ex5 "All" ["X", "Y"] (15000, 25000) ["Amazon", "Flipkart"] [8, 16] [512, 256]).length)
    ∧ (["X", "Y"].erase "Y" ≠ []
      ∧ (filter_data ex5 "All" (["X", "Y"].erase "Y") (15000, 25000) ["Amazon", "Flipkart"] [8, 16] [512, 256]).length
          ≤ (filter_data ex5 "All" ["X", "Y"] (15000, 25000) ["Amazon", "Flipkart"] [8, 16] [512, 256]).length)
    ∧ ((["Amazon", "Flipkart"].erase "Amazon") ≠ []
      ∧ (filter_data ex5 "All" ["X", "Y"] (15000, 25000) (["Amazon", "Flipkart"].erase "Amazon") [8, 16] [512, 256]).length
          ≤ (filter_data ex5 "All" ["X", "Y"] (15000, 25000) ["Amazon", "Flipkart"] [8, 16] [512, 256]).length)
    ∧ (([8, 16] : List Int).erase 8 ≠ []
      ∧ (filter_data ex5 "All" ["X", "Y"] (15000, 25000) ["Amazon", "Flipkart"] (([8, 16] : List Int).erase 8) [512, 256]).length
          ≤ (filter_data ex5 "All" ["X", "Y"] (15000, 25000) ["Amazon", "Flipkart"] [8, 16] [512, 256]).length)
    ∧ (([512, 256] : List Int).erase 256 ≠ []
      ∧ (filter_data ex5 "All" ["X", "Y"] (15000, 25000) ["Amazon", "Flipkart"] [8, 16] (([512, 256] : List Int).erase 256)).length
          ≤ (filter_data ex5 "All" ["X", "Y"] (15000, 25000) ["Amazon", "Flipkart"] [8, 16] [512, 256]).length) :=
  ⟨⟨by decide, by decide,
      (filter_data_narrowing_mono ex5 "All" ["X", "Y"] (15000, 25000)
        ["Amazon", "Flipkart"] [8, 16] [512, 256]).1 16000 24000 (by decide) (by decide)⟩,
    ⟨by decide,
      (filter_data_narrowing_mono ex5 "All" ["X", "Y"] (15000, 25000)
        ["Amazon", "Flipkart"] [8, 16] [512, 256]).2.1 "Y" (by decide)⟩,
    ⟨by decide,
      (filter_data_narrowing_mono ex5 "All" ["X", "Y"] (15000, 25000)
        ["Amazon", "Flipkart"] [8, 16] [512, 256]).2.2.1 "Amazon" (by decide)⟩,
    ⟨by decide,
      (filter_data_narrowing_mono ex5 "All" ["X", "Y"] (15000, 25000)
        ["Amazon", "Flipkart"] [8, 16] [512, 256]).2.2.2.1 8 (by decide)⟩,
    ⟨by decide,
      (filter_data_narrowing_mono ex5 "All" ["X", "Y"] (15000, 25000)
        ["Amazon", "Flipkart"] [8, 16] [512, 256]).2.2.2.2 256 (by decide)⟩⟩

/-- C6: every aggregation is total on the empty table — grouped mean/count,
grouped means, value counts and the cheapest platforms all return the empty
sequence (no group ever has zero rows, so no mean divides by zero). -/
theorem aggregations_empty_table :
    platform_stats [] = [] ∧ platform_means [] = []
    ∧ platform_value_counts [] = [] ∧ get_cheapest_platforms [] = [] :=
  ⟨rfl, rfl, rfl, rfl⟩

/-- C7: the filter is idempotent — applying `filter_data` to its own output
with the same specification returns that output unchanged. -/
theorem filter_data_idempotent (df : List Row) (city : String)
    (brands : List String) (price_range : Int × Int) (platforms : List String)
    (ram_sizes storage_sizes : List Int) :
    filter_data (filter_data df city brands price_range platforms ram_sizes storage_sizes)
        city brands price_range platforms ram_sizes storage_sizes
      = filter_data df city brands price_range platforms ram_sizes storage_sizes := by
  simp only [filter_data_eq, List.filter_filter]
  apply List.filter_congr
  intro r _
  rw [Bool.and_self]

/-- C9: the derived Platform, City and Rating columns are a function of the
fixed seed 42 and the base table alone — two loads agree row for row whatever
the ambient generator state was before each call. -/
theorem load_data_deterministic (base : List BaseRow) (g1 g2 : Nat) :
    ((load_data base g1).1.map Row.platform = (load_data base g2).1.map Row.platform)
    ∧ ((load_data base g1).1.map Row.city = (load_data base g2).1.map Row.city)
    ∧ ((load_data base g1).1.map Row.rating = (load_data base g2).1.map Row.rating) :=
  ⟨rfl, rfl, rfl⟩

/-- C10: the guarded loader never propagates a failure — a failed read
returns `none`, a successful read returns the augmented table, and the
`none` check detects exactly the read failures. -/
theorem load_data_checked_no_exception :
    (∀ (e : String) (g : Nat), load_data_checked (Except.error e) g = none)
    ∧ (∀ (df : List BaseRow) (g : Nat),
        load_data_checked (Except.ok df) g = some (load_data df g))
    ∧ (∀ (read_result : Except String (List BaseRow)) (g : Nat),
        (load_data_checked read_result g).isSome = read_result.isOk) := by
  refine ⟨fun e g => rfl, fun df g => rfl, fun read_result g => ?_⟩
  cases read_result <;> rfl
